import Mathlib

/-!
Verification of the ElementCrawler PC client (`pc/main.py`): the element
data model, the locator-selection strategy, and the TCP protocol client.

The Python source is shallowly embedded:
* `json.loads` is modelled by an executable JSON parser (`Json.parse`);
  JSON numbers are modelled as integers only — the element snapshots the
  client consumes carry only integer fields, and a fractional number makes
  the modelled parse fail where Python would produce a float.
* Socket I/O is modelled by an oracle `String → AgentResult` describing
  what the on-device agent (or the transport layer) does with the written
  line, together with an explicit log of socket operations (`SockOp`), so
  that "no socket is touched" is a provable statement.
* Python exceptions are modelled with `Option`/explicit error results;
  the `strip` method of Python strings is modelled by the executable `pyStrip`.
-/

namespace ElementCrawler

/-- JSON values as produced by `json.loads`, with numbers restricted to
integers (the only numeric fields in the protocol are integral). -/
inductive Json where
  | null : Json
  | bool (b : Bool) : Json
  | num (n : Int) : Json
  | str (s : String) : Json
  | arr (items : List Json) : Json
  | obj (fields : List (String × Json)) : Json

/-- JSON insignificant whitespace. -/
def jsonWs (c : Char) : Bool :=
  c = ' ' || c = '\t' || c = '\n' || c = '\r'

/-- Drop leading JSON whitespace. -/
def skipWs (input : List Char) : List Char :=
  match input with
  | [] => []
  | c :: rest => if jsonWs c then skipWs rest else input

/-- Single-character JSON string escapes (`\uXXXX` escapes are outside the
model; the protocol payloads used here never contain them). -/
def escChar (c : Char) : Option Char :=
  if c = '"' ∨ c = '\\' ∨ c = '/' then some c
  else if c = 'n' then some '\n'
  else if c = 't' then some '\t'
  else if c = 'r' then some '\r'
  else if c = 'b' then some (Char.ofNat 8)
  else if c = 'f' then some (Char.ofNat 12)
  else none

/-- Parse the body of a JSON string after the opening quote; returns the
decoded string and the remaining input. -/
def parseStrBody (acc : List Char) : List Char → Option (String × List Char)
  | [] => none
  | c :: cs =>
    if c = '"' then some (String.mk acc.reverse, cs)
    else if c = '\\' then
      match cs with
      | [] => none
      | e :: cs2 =>
        match escChar e with
        | some ch => parseStrBody (ch :: acc) cs2
        | none => none
    else parseStrBody (c :: acc) cs

/-- Split a maximal run of decimal digits off the front of the input. -/
def takeDigits (input : List Char) : List Char × List Char :=
  match input with
  | [] => ([], [])
  | c :: rest =>
    if !c.isDigit then ([], input)
    else
      let p := takeDigits rest
      (c :: p.1, p.2)

/-- Numeric value of a digit run. -/
def digitsVal (ds : List Char) : Nat :=
  ds.foldl (fun acc d => 10 * acc + (d.toNat - 48)) 0

/-- Match a literal character sequence, returning the rest of the input. -/
def dropLit : List Char → List Char → Option (List Char)
  | [], cs => some cs
  | _, [] => none
  | l :: ls, c :: cs => if l = c then dropLit ls cs else none

mutual

/-- Parse one JSON value (fuel-indexed recursion). -/
def parseVal : Nat → List Char → Option (Json × List Char)
  | 0, _ => none
  | fuel + 1, cs =>
    match skipWs cs with
    | [] => none
    | c :: cs1 =>
      if c = '"' then
        match parseStrBody [] cs1 with
        | some (s, rest) => some (.str s, rest)
        | none => none
      else if c = '[' then
        match skipWs cs1 with
        | ']' :: rest => some (.arr [], rest)
        | cs2 =>
          match parseItems fuel cs2 with
          | some (items, rest) => some (.arr items, rest)
          | none => none
      else if c = '\x7b' then
        match skipWs cs1 with
        | '\x7d' :: rest => some (.obj [], rest)
        | cs2 =>
          match parseFields fuel cs2 with
          | some (fields, rest) => some (.obj fields, rest)
          | none => none
      else if c = 't' then
        match dropLit ['r', 'u', 'e'] cs1 with
        | some rest => some (.bool true, rest)
        | none => none
      else if c = 'f' then
        match dropLit ['a', 'l', 's', 'e'] cs1 with
        | some rest => some (.bool false, rest)
        | none => none
      else if c = 'n' then
        match dropLit ['u', 'l', 'l'] cs1 with
        | some rest => some (.null, rest)
        | none => none
      else if c = '-' then
        match takeDigits cs1 with
        | ([], _) => none
        | (ds, rest) => some (.num (-(digitsVal ds : Int)), rest)
      else if c.isDigit then
        match takeDigits (c :: cs1) with
        | ([], _) => none
        | (ds, rest) => some (.num (digitsVal ds), rest)
      else none

/-- Parse the comma-separated items of a non-empty JSON array, up to and
including the closing bracket. -/
def parseItems : Nat → List Char → Option (List Json × List Char)
  | 0, _ => none
  | fuel + 1, cs =>
    match parseVal fuel cs with
    | none => none
    | some (j, rest) =>
      match skipWs rest with
      | ',' :: rest2 =>
        match parseItems fuel rest2 with
        | some (items, rest3) => some (j :: items, rest3)
        | none => none
      | ']' :: rest2 => some ([j], rest2)
      | _ => none

/-- Parse the key/value pairs of a non-empty JSON object, up to and
including the closing brace. -/
def parseFields : Nat → List Char → Option (List (String × Json) × List Char)
  | 0, _ => none
  | fuel + 1, cs =>
    match skipWs cs with
    | '"' :: cs1 =>
      match parseStrBody [] cs1 with
      | none => none
      | some (k, rest) =>
        match skipWs rest with
        | ':' :: rest2 =>
          match parseVal fuel rest2 with
          | none => none
          | some (v, rest3) =>
            match skipWs rest3 with
            | ',' :: rest4 =>
              match parseFields fuel rest4 with
              | some (fields, rest5) => some ((k, v) :: fields, rest5)
              | none => none
            | '\x7d' :: rest4 => some ([(k, v)], rest4)
            | _ => none
        | _ => none
    | _ => none

end

/-- Entry point `json.loads`: parse a complete JSON document (trailing whitespace
allowed, anything else after the value is an error). -/
def Json.parse (s : String) : Option Json :=
  match parseVal (2 * s.length + 2) s.data with
  | some (j, rest) => if skipWs rest = [] then some j else none
  | none => none

/-- Dataclass `Element` (`pc/main.py` lines 26–41): a snapshot of one UI node. -/
structure Element where
  resource_id : String := ""
  text : String := ""
  content_desc : String := ""
  class_name : String := ""
  bounds : String := ""
  depth : Int := 0
  is_clickable : Bool := false
  is_scrollable : Bool := false
  is_focusable : Bool := false
  is_editable : Bool := false
  package_name : String := ""
  view_id : String := ""
  x : Int := 0
  y : Int := 0
deriving Repr, DecidableEq

/-- Dictionary lookup for a decoded JSON object.  `json.loads` keeps the last
binding of a duplicated key, so the lookup prefers later occurrences. -/
def jlookup (fields : List (String × Json)) (key : String) : Option Json :=
  match fields with
  | [] => none
  | (k, v) :: rest =>
    if k = key then
      match jlookup rest key with
      | some v2 => some v2
      | none => some v
    else jlookup rest key

/-- Model of `data.get(key, default)` for a string field.  Python stores whatever
value is present untyped; the typed model decodes a present field of the
wrong JSON type to a failure instead. -/
def getStr (fields : List (String × Json)) (key : String) (default : String) :
    Option String :=
  match jlookup fields key with
  | none => some default
  | some (.str s) => some s
  | some _ => none

/-- Model of `data.get(key, default)` for an integer field. -/
def getInt (fields : List (String × Json)) (key : String) (default : Int) :
    Option Int :=
  match jlookup fields key with
  | none => some default
  | some (.num n) => some n
  | some _ => none

/-- Model of `data.get(key, default)` for a boolean field. -/
def getBool (fields : List (String × Json)) (key : String) (default : Bool) :
    Option Bool :=
  match jlookup fields key with
  | none => some default
  | some (.bool b) => some b
  | some _ => none

/-- Decoder `Element.from_dict` (lines 43–60).  Decoding a JSON value that is not
an object raises in Python (`data.get` is unavailable), modelled as
`none`; absent fields take permissive defaults. -/
def Element.from_dict : Json → Option Element
  | .obj fields => do
    let resource_id ← getStr fields ("resourceId") ""
    let text ← getStr fields ("text") ""
    let content_desc ← getStr fields ("contentDesc") ""
    let class_name ← getStr fields ("className") ""
    let bounds ← getStr fields ("bounds") ""
    let depth ← getInt fields ("depth") 0
    let is_clickable ← getBool fields ("isClickable") false
    let is_scrollable ← getBool fields ("isScrollable") false
    let is_focusable ← getBool fields ("isFocusable") false
    let is_editable ← getBool fields ("isEditable") false
    let package_name ← getStr fields ("packageName") ""
    let view_id ← getStr fields ("viewId") ""
    let x ← getInt fields ("x") 0
    let y ← getInt fields ("y") 0
    some { resource_id, text, content_desc, class_name, bounds, depth,
           is_clickable, is_scrollable, is_focusable, is_editable,
           package_name, view_id, x, y }
  | _ => none

/-- A locator candidate as built by `Element.get_best_locator`
(lines 62–105): kind, value, priority rank and generated Appium snippet. -/
structure Locator where
  type : String
  value : String
  priority : Nat
  code : String
deriving Repr, DecidableEq

/-- The candidate list built inside `Element.get_best_locator`
(lines 63–102): one candidate per identifying field that is non-empty and
not the literal `"null"`, in the fixed order resource-id, text,
content-desc, className, with the coordinates candidate appended last
unconditionally. -/
def locator_candidates (e : Element) : List Locator :=
  (if e.resource_id ≠ "" ∧ e.resource_id ≠ "null" then
    [{ type := "resource-id", value := e.resource_id, priority := 1,
       code := "driver.find_element(AppiumBy.ID, \"" ++ e.resource_id ++ "\")" }]
   else []) ++
  (if e.text ≠ "" ∧ e.text ≠ "null" then
    [{ type := "text", value := e.text, priority := 2,
       code := "driver.find_element(AppiumBy.ANDROID_UIAUTOMATOR, \"new UiSelector().text(\\\"" ++ e.text ++ "\\\")\")" }]
   else []) ++
  (if e.content_desc ≠ "" ∧ e.content_desc ≠ "null" then
    [{ type := "content-desc", value := e.content_desc, priority := 3,
       code := "driver.find_element(AppiumBy.ANDROID_UIAUTOMATOR, \"new UiSelector().description(\\\"" ++ e.content_desc ++ "\\\")\")" }]
   else []) ++
  (if e.class_name ≠ "" ∧ e.class_name ≠ "null" then
    [{ type := "className", value := e.class_name, priority := 4,
       code := "driver.find_element(AppiumBy.CLASS_NAME, \"" ++ e.class_name ++ "\")" }]
   else []) ++
  [{ type := "coordinates",
     value := "(" ++ toString e.x ++ ", " ++ toString e.y ++ ")", priority := 5,
     code := "driver.tap([(" ++ toString e.x ++ ", " ++ toString e.y ++ ")])" }]

/-- Stable insertion of one candidate into a priority-sorted list
(equal priorities keep the earlier element first, matching the stability
guarantee of the Python list sort). -/
def insertByPriority (x : Locator) : List Locator → List Locator
  | [] => [x]
  | h :: t =>
    if x.priority ≤ h.priority then x :: h :: t else h :: insertByPriority x t

/-- Model of the sort call on line 104 (a stable Python list sort keyed
on the priority field). -/
def sortByPriority : List Locator → List Locator
  | [] => []
  | h :: t => insertByPriority h (sortByPriority t)

/-- Method `Element.get_best_locator` (lines 62–105): sort the candidates by
priority and return the first; the `{}` fallback for an empty list is
modelled as `none`. -/
def Element.get_best_locator (e : Element) : Option Locator :=
  (sortByPriority (locator_candidates e)).head?

/-- A locator entry as built by `MainWindow.get_all_locators`
(lines 615–652): same kind/value/snippet as the candidates of
`get_best_locator`, but with no priority field. -/
structure LocatorInfo where
  type : String
  value : String
  code : String
deriving Repr, DecidableEq

/-- Method `MainWindow.get_all_locators` (lines 615–652): enumerate all viable
candidates, in construction order, with no explicit sort. -/
def get_all_locators (e : Element) : List LocatorInfo :=
  (if e.resource_id ≠ "" ∧ e.resource_id ≠ "null" then
    [{ type := "resource-id", value := e.resource_id,
       code := "driver.find_element(AppiumBy.ID, \"" ++ e.resource_id ++ "\")" }]
   else []) ++
  (if e.text ≠ "" ∧ e.text ≠ "null" then
    [{ type := "text", value := e.text,
       code := "driver.find_element(AppiumBy.ANDROID_UIAUTOMATOR, \"new UiSelector().text(\\\"" ++ e.text ++ "\\\")\")" }]
   else []) ++
  (if e.content_desc ≠ "" ∧ e.content_desc ≠ "null" then
    [{ type := "content-desc", value := e.content_desc,
       code := "driver.find_element(AppiumBy.ANDROID_UIAUTOMATOR, \"new UiSelector().description(\\\"" ++ e.content_desc ++ "\\\")\")" }]
   else []) ++
  (if e.class_name ≠ "" ∧ e.class_name ≠ "null" then
    [{ type := "className", value := e.class_name,
       code := "driver.find_element(AppiumBy.CLASS_NAME, \"" ++ e.class_name ++ "\")" }]
   else []) ++
  [{ type := "coordinates",
     value := "(" ++ toString e.x ++ ", " ++ toString e.y ++ ")",
     code := "driver.tap([(" ++ toString e.x ++ ", " ++ toString e.y ++ ")])" }]

/-- The mutable state of `AndroidConnection` (lines 108–111): the
`connected` flag and whether `self.socket` is non-`None`. -/
structure AndroidConnection where
  connected : Bool
  hasSocket : Bool
deriving Repr, DecidableEq

/-- What the transport/agent does with one written line: the write itself
raises, the read raises (e.g. timeout), or the agent replies with raw
bytes. -/
inductive AgentResult where
  | sendFail (msg : String)
  | recvFail (msg : String)
  | reply (raw : String)

/-- One observable operation on the socket. -/
inductive SockOp where
  | write (line : String)
  | read
deriving Repr, DecidableEq

/-- Characters removed by the `strip` method of Python strings. -/
def pyStripWs (c : Char) : Bool :=
  c = ' ' || c = '\t' || c = '\n' || c = '\r' || c = Char.ofNat 11 || c = Char.ofNat 12

/-- Model of `response.strip()` as an executable function. -/
def pyStrip (s : String) : String :=
  String.mk (((s.data.dropWhile pyStripWs).reverse.dropWhile pyStripWs).reverse)

/-- Method `AndroidConnection.send_command` (lines 125–136): on a closed session
return the sentinel without touching the socket; otherwise write
`command ++ "\n"`, read, and return the stripped response; an exception
during send or receive is caught and converted to `"ERROR: <msg>"`.
The 65536-byte read bound and the socket timeouts are not modelled.
Returns the response string and the log of socket operations. -/
def send_command (conn : AndroidConnection) (agent : String → AgentResult)
    (command : String) : String × List SockOp :=
  if !conn.connected || !conn.hasSocket then ("ERROR: Not connected", [])
  else
    match agent (command ++ "\n") with
    | .sendFail msg => ("ERROR: " ++ msg, [.write (command ++ "\n")])
    | .recvFail msg => ("ERROR: " ++ msg, [.write (command ++ "\n"), .read])
    | .reply raw => (pyStrip raw, [.write (command ++ "\n"), .read])

/-- Method `AndroidConnection.connect` (lines 113–123): unconditionally create a
fresh socket and try to connect; `connectSucceeds` is the oracle for
whether `socket.connect` raises.  On success `connected := true`; on
failure the exception is caught and `connected := false` (the freshly
created socket object is still assigned).  Returns the new state and the
boolean result. -/
def connect (conn : AndroidConnection) (connectSucceeds : Bool) :
    AndroidConnection × Bool :=
  if connectSucceeds then ({ connected := true, hasSocket := true }, true)
  else ({ connected := false, hasSocket := true }, false)

/-- Method `AndroidConnection.disconnect` (lines 138–142): close and drop the
socket if any, and unconditionally mark the session closed. -/
def disconnect (conn : AndroidConnection) : AndroidConnection :=
  { connected := false, hasSocket := false }

/-- Method `click_by_coords` (lines 152–154). -/
def click_by_coords (conn : AndroidConnection) (agent : String → AgentResult)
    (x y : Int) : Bool × List SockOp :=
  let r := send_command conn agent ("CLICK_BY_COORDS:" ++ toString x ++ "," ++ toString y)
  (r.1 == "OK", r.2)

/-- Method `click_by_id` (lines 156–158). -/
def click_by_id (conn : AndroidConnection) (agent : String → AgentResult)
    (element_id : String) : Bool × List SockOp :=
  let r := send_command conn agent ("CLICK_BY_ID:" ++ element_id)
  (r.1 == "OK", r.2)

/-- Method `click_by_text` (lines 160–162). -/
def click_by_text (conn : AndroidConnection) (agent : String → AgentResult)
    (text : String) : Bool × List SockOp :=
  let r := send_command conn agent ("CLICK_BY_TEXT:" ++ text)
  (r.1 == "OK", r.2)

/-- Method `click_by_content_desc` (lines 164–166). -/
def click_by_content_desc (conn : AndroidConnection) (agent : String → AgentResult)
    (content_desc : String) : Bool × List SockOp :=
  let r := send_command conn agent ("CLICK_BY_CONTENT_DESC:" ++ content_desc)
  (r.1 == "OK", r.2)

/-- Method `input_text` (lines 168–170). -/
def input_text (conn : AndroidConnection) (agent : String → AgentResult)
    (text : String) : Bool × List SockOp :=
  let r := send_command conn agent ("INPUT_TEXT:" ++ text)
  (r.1 == "OK", r.2)

/-- Method `scroll_down` (lines 172–174). -/
def scroll_down (conn : AndroidConnection) (agent : String → AgentResult) :
    Bool × List SockOp :=
  let r := send_command conn agent ("SCROLL_DOWN")
  (r.1 == "OK", r.2)

/-- Method `scroll_up` (lines 176–178). -/
def scroll_up (conn : AndroidConnection) (agent : String → AgentResult) :
    Bool × List SockOp :=
  let r := send_command conn agent ("SCROLL_UP")
  (r.1 == "OK", r.2)

/-- The list comprehension `[Element.from_dict(item) for item in data]`
under the enclosing `try`: one failing item aborts the whole decode. -/
def decodeItems : List Json → Option (List Element)
  | [] => some []
  | x :: xs =>
    match Element.from_dict x, decodeItems xs with
    | some e, some es => some (e :: es)
    | _, _ => none

/-- The `try/except` body of `get_elements` (lines 146–150) applied to the
response string: a failed parse, a non-array document (whose iteration or
per-item decode raises in Python), or any failing item yields `[]`. -/
def decode_response (response : String) : List Element :=
  match Json.parse response with
  | some (.arr items) =>
    match decodeItems items with
    | some es => es
    | none => []
  | _ => []

/-- Method `AndroidConnection.get_elements` (lines 144–150). -/
def get_elements (conn : AndroidConnection) (agent : String → AgentResult) :
    List Element :=
  decode_response (send_command conn agent ("GET_ELEMENTS")).1

/-- Method `MainWindow.click_test` (lines 663–684) for a selected element: try
id, then text, then content description, each only when non-empty and not
`"null"`, stopping at the first device-side click that succeeds.  Returns
the success status-bar message (`none` = the final "no usable locator"
message) and the accumulated socket operations. -/
def click_test (conn : AndroidConnection) (agent : String → AgentResult)
    (e : Element) : Option String × List SockOp :=
  if e.resource_id ≠ "" ∧ e.resource_id ≠ "null" then
    let r1 := click_by_id conn agent e.resource_id
    if r1.1 then (some ("点击成功 (ID: " ++ e.resource_id ++ ")"), r1.2)
    else if e.text ≠ "" ∧ e.text ≠ "null" then
      let r2 := click_by_text conn agent e.text
      if r2.1 then (some ("点击成功 (Text: " ++ e.text ++ ")"), r1.2 ++ r2.2)
      else if e.content_desc ≠ "" ∧ e.content_desc ≠ "null" then
        let r3 := click_by_content_desc conn agent e.content_desc
        if r3.1 then (some ("点击成功 (ContentDesc: " ++ e.content_desc ++ ")"), r1.2 ++ r2.2 ++ r3.2)
        else (none, r1.2 ++ r2.2 ++ r3.2)
      else (none, r1.2 ++ r2.2)
    else if e.content_desc ≠ "" ∧ e.content_desc ≠ "null" then
      let r3 := click_by_content_desc conn agent e.content_desc
      if r3.1 then (some ("点击成功 (ContentDesc: " ++ e.content_desc ++ ")"), r1.2 ++ r3.2)
      else (none, r1.2 ++ r3.2)
    else (none, r1.2)
  else if e.text ≠ "" ∧ e.text ≠ "null" then
    let r2 := click_by_text conn agent e.text
    if r2.1 then (some ("点击成功 (Text: " ++ e.text ++ ")"), r2.2)
    else if e.content_desc ≠ "" ∧ e.content_desc ≠ "null" then
      let r3 := click_by_content_desc conn agent e.content_desc
      if r3.1 then (some ("点击成功 (ContentDesc: " ++ e.content_desc ++ ")"), r2.2 ++ r3.2)
      else (none, r2.2 ++ r3.2)
    else (none, r2.2)
  else if e.content_desc ≠ "" ∧ e.content_desc ≠ "null" then
    let r3 := click_by_content_desc conn agent e.content_desc
    if r3.1 then (some ("点击成功 (ContentDesc: " ++ e.content_desc ++ ")"), r3.2)
    else (none, r3.2)
  else (none, [])

/-- One operation applied to an `AndroidConnection` for the session
state machine. -/
inductive SessionOp where
  | connectOp (connectSucceeds : Bool)
  | disconnectOp
  | sendOp (agent : String → AgentResult) (command : String)

/-- The session state machine: how each operation of the client changes
the connection state.  `send_command` only reads `self.connected` and
`self.socket` and never assigns them, so `sendOp` leaves the state
unchanged by construction. -/
def sessionStep (conn : AndroidConnection) : SessionOp → AndroidConnection
  | .connectOp b => (connect conn b).1
  | .disconnectOp => disconnect conn
  | .sendOp _ _ => conn

/-! ### Specification-side definitions

These follow the words of the spec (§4.2, §8) rather than the source, and are
used to state the refinement and ordering claims. -/

/-- Priority number the spec gives each locator kind (§4.2): lower is
preferred, coordinates last. -/
def kindPriority : String → Nat
  | "resource-id" => 1
  | "text" => 2
  | "content-desc" => 3
  | "className" => 4
  | "coordinates" => 5
  | _ => 6

/-- The device-side click commands `click_test` may try for an element,
in the fixed priority order of the spec, id → text → content-description,
skipping absent (empty or `"null"`) fields. -/
def eligibleClickCmds (e : Element) : List String :=
  (if e.resource_id ≠ "" ∧ e.resource_id ≠ "null" then
    ["CLICK_BY_ID:" ++ e.resource_id] else []) ++
  (if e.text ≠ "" ∧ e.text ≠ "null" then
    ["CLICK_BY_TEXT:" ++ e.text] else []) ++
  (if e.content_desc ≠ "" ∧ e.content_desc ≠ "null" then
    ["CLICK_BY_CONTENT_DESC:" ++ e.content_desc] else [])

/-- Semantics of attempt-in-order-stop-at-first-success: the prefix of the
command list up to and including the first command the device accepts. -/
def attemptChain (ok : String → Bool) : List String → List String
  | [] => []
  | c :: rest => if ok c then [c] else c :: attemptChain ok rest

/-- The lines written to the socket, extracted from an operation log. -/
def writesOf (ops : List SockOp) : List String :=
  ops.filterMap fun op =>
    match op with
    | .write line => some line
    | .read => none

/-! ### Claim theorems -/

/-- C1: for every Element whose resource identifier is non-empty and not
the literal string "null", `get_best_locator` returns the resource-id
candidate carrying that identifier, regardless of whether text, content
description, or class name are also populated. -/
theorem best_locator_is_resource_id (e : Element)
    (h1 : e.resource_id ≠ "") (h2 : e.resource_id ≠ "null") :
    e.get_best_locator = some
      { type := "resource-id", value := e.resource_id, priority := 1,
        code := "driver.find_element(AppiumBy.ID, \"" ++ e.resource_id ++ "\")" } := by
  unfold Element.get_best_locator locator_candidates
  rw [if_pos ⟨h1, h2⟩]
  split_ifs <;> rfl

/-- Witness for C1: a fully populated element still selects resource-id. -/
theorem best_locator_is_resource_id_witness :
    ("btn1" : String) ≠ "" ∧ ("btn1" : String) ≠ "null"
    ∧ ({ resource_id := "btn1", text := "Login", content_desc := "desc",
         class_name := "android.widget.Button", x := 10, y := 20 } : Element).get_best_locator
        = some { type := "resource-id", value := "btn1", priority := 1,
                 code := "driver.find_element(AppiumBy.ID, \"btn1\")" } :=
  ⟨by decide, by decide,
   best_locator_is_resource_id
     { resource_id := "btn1", text := "Login", content_desc := "desc",
       class_name := "android.widget.Button", x := 10, y := 20 }
     (by decide) (by decide)⟩

/-- C2: for every Element whose resource identifier, text, content
description and class name are each empty or the literal "null",
`get_best_locator` returns the coordinates candidate whose value encodes
the center point `(x, y)` of the element. -/
theorem best_locator_is_coordinates (e : Element)
    (h1 : e.resource_id = "" ∨ e.resource_id = "null")
    (h2 : e.text = "" ∨ e.text = "null")
    (h3 : e.content_desc = "" ∨ e.content_desc = "null")
    (h4 : e.class_name = "" ∨ e.class_name = "null") :
    e.get_best_locator = some
      { type := "coordinates",
        value := "(" ++ toString e.x ++ ", " ++ toString e.y ++ ")", priority := 5,
        code := "driver.tap([(" ++ toString e.x ++ ", " ++ toString e.y ++ ")])" } := by
  have c1 : ¬(e.resource_id ≠ "" ∧ e.resource_id ≠ "null") := by
    rcases h1 with h | h <;> simp [h]
  have c2 : ¬(e.text ≠ "" ∧ e.text ≠ "null") := by
    rcases h2 with h | h <;> simp [h]
  have c3 : ¬(e.content_desc ≠ "" ∧ e.content_desc ≠ "null") := by
    rcases h3 with h | h <;> simp [h]
  have c4 : ¬(e.class_name ≠ "" ∧ e.class_name ≠ "null") := by
    rcases h4 with h | h <;> simp [h]
  unfold Element.get_best_locator locator_candidates
  rw [if_neg c1, if_neg c2, if_neg c3, if_neg c4]
  rfl

/-- Witness for C2: an element with fields "" / "null" falls back to its
center coordinates. -/
theorem best_locator_is_coordinates_witness :
    (("null" : String) = "" ∨ ("null" : String) = "null")
    ∧ (("" : String) = "" ∨ ("" : String) = "null")
    ∧ ({ resource_id := "null", text := "", content_desc := "null",
         class_name := "", x := 5, y := 7 } : Element).get_best_locator
        = some { type := "coordinates", value := "(5, 7)", priority := 5,
                 code := "driver.tap([(5, 7)])" } :=
  ⟨Or.inr rfl, Or.inl rfl,
   best_locator_is_coordinates
     { resource_id := "null", text := "", content_desc := "null",
       class_name := "", x := 5, y := 7 }
     (Or.inr rfl) (Or.inl rfl) (Or.inr rfl) (Or.inl rfl)⟩

/-- C9: the locator strategy is total — for every Element the candidate
list is non-empty, its last entry is the unconditionally appended
coordinates candidate, and `get_best_locator` never returns the empty
"no locator" result. -/
theorem locator_strategy_total (e : Element) :
    locator_candidates e ≠ []
    ∧ (locator_candidates e).getLast? = some
        { type := "coordinates",
          value := "(" ++ toString e.x ++ ", " ++ toString e.y ++ ")", priority := 5,
          code := "driver.tap([(" ++ toString e.x ++ ", " ++ toString e.y ++ ")])" }
    ∧ e.get_best_locator.isSome = true := by
  refine ⟨?_, ?_, ?_⟩
  · unfold locator_candidates
    split_ifs <;> simp
  · unfold locator_candidates
    split_ifs <;> rfl
  · unfold Element.get_best_locator locator_candidates
    split_ifs <;> rfl

/-- C3: for every Element, the enumerate-all list of
`MainWindow.get_all_locators` is strictly ascending in the priority
order (resource-id, text, content-desc, className, coordinates), and the
select-best result of `Element.get_best_locator` equals its first entry in
kind, value and code snippet. -/
theorem all_locators_sorted_and_best_is_head (e : Element) :
    (get_all_locators e).Pairwise (fun a b => kindPriority a.type < kindPriority b.type)
    ∧ ∃ best, e.get_best_locator = some best
        ∧ (get_all_locators e).head?
            = some { type := best.type, value := best.value, code := best.code } := by
  refine ⟨?_, ?_⟩
  · unfold get_all_locators
    split_ifs <;> simp [List.pairwise_cons, kindPriority]
  · unfold Element.get_best_locator get_all_locators locator_candidates
    split_ifs <;> exact ⟨_, rfl, rfl⟩

/-- An error-string result is never the literal `"OK"`. -/
theorem error_ne_ok (msg : String) : (("ERROR: " ++ msg) == "OK") = false := by
  refine beq_eq_false_iff_ne.mpr fun h => ?_
  have hl := congrArg String.length h
  rw [String.length_append] at hl
  have h7 : "ERROR: ".length = 7 := rfl
  have h2 : "OK".length = 2 := rfl
  omega

/-- Behaviour of `send_command` on an open session with a replying agent: one write of
the newline-terminated command, one read, stripped response returned. -/
theorem send_command_reply (conn : AndroidConnection)
    (h1 : conn.connected = true) (h2 : conn.hasSocket = true)
    (raw command : String) :
    send_command conn (fun _ => AgentResult.reply raw) command
      = (pyStrip raw, [.write (command ++ "\n"), .read]) := by
  unfold send_command
  rw [h1, h2]
  rfl

/-- C5: `send_command` invoked while the session is closed returns the
not-connected sentinel, performs no socket operation, and (the model
being a total function) raises nothing, for every command and every
agent behaviour. -/
theorem send_command_closed (conn : AndroidConnection)
    (agent : String → AgentResult) (command : String)
    (h : conn.connected = false) :
    send_command conn agent command = ("ERROR: Not connected", []) := by
  unfold send_command
  rw [h]
  rfl

/-- Witness for C5 on a concrete closed connection. -/
theorem send_command_closed_witness :
    (⟨false, false⟩ : AndroidConnection).connected = false
    ∧ send_command ⟨false, false⟩ (fun _ => AgentResult.reply ("OK")) "GET_ELEMENTS"
        = ("ERROR: Not connected", []) :=
  ⟨rfl, send_command_closed ⟨false, false⟩ _ _ rfl⟩

/-- C4: on an open session, each convenience command sends exactly one
newline-terminated `VERB:payload` line (or the fixed scroll keyword),
followed by one read, and returns `true` exactly when the stripped
response is the literal `"OK"`; a transport failure (whose result is a
sentinel error string) yields `false`. -/
theorem convenience_commands_ok_iff (conn : AndroidConnection)
    (h1 : conn.connected = true) (h2 : conn.hasSocket = true)
    (x y : Int) (element_id text desc itext raw msg : String) :
    click_by_coords conn (fun _ => AgentResult.reply raw) x y
      = (pyStrip raw == "OK",
         [.write (("CLICK_BY_COORDS:" ++ toString x ++ "," ++ toString y) ++ "\n"), .read])
    ∧ click_by_id conn (fun _ => AgentResult.reply raw) element_id
      = (pyStrip raw == "OK", [.write (("CLICK_BY_ID:" ++ element_id) ++ "\n"), .read])
    ∧ click_by_text conn (fun _ => AgentResult.reply raw) text
      = (pyStrip raw == "OK", [.write (("CLICK_BY_TEXT:" ++ text) ++ "\n"), .read])
    ∧ click_by_content_desc conn (fun _ => AgentResult.reply raw) desc
      = (pyStrip raw == "OK", [.write (("CLICK_BY_CONTENT_DESC:" ++ desc) ++ "\n"), .read])
    ∧ input_text conn (fun _ => AgentResult.reply raw) itext
      = (pyStrip raw == "OK", [.write (("INPUT_TEXT:" ++ itext) ++ "\n"), .read])
    ∧ scroll_up conn (fun _ => AgentResult.reply raw)
      = (pyStrip raw == "OK", [.write ("SCROLL_UP" ++ "\n"), .read])
    ∧ scroll_down conn (fun _ => AgentResult.reply raw)
      = (pyStrip raw == "OK", [.write ("SCROLL_DOWN" ++ "\n"), .read])
    ∧ (click_by_coords conn (fun _ => AgentResult.sendFail msg) x y).1 = false
    ∧ (click_by_coords conn (fun _ => AgentResult.recvFail msg) x y).1 = false := by
  simp only [click_by_coords, click_by_id, click_by_text, click_by_content_desc,
    input_text, scroll_up, scroll_down, send_command, h1, h2]
  simp [error_ne_ok]

/-- Witness for C4: `CLICK_BY_COORDS:5,5` against an agent answering
`FAIL` returns false, and a padded `" OK "` reply strips to a success. -/
theorem convenience_commands_ok_iff_witness :
    (⟨true, true⟩ : AndroidConnection).connected = true
    ∧ (⟨true, true⟩ : AndroidConnection).hasSocket = true
    ∧ (click_by_coords ⟨true, true⟩ (fun _ => AgentResult.reply ("FAIL")) 5 5).1 = false
    ∧ (scroll_up ⟨true, true⟩ (fun _ => AgentResult.reply (" OK "))).1 = true := by
  refine ⟨rfl, rfl, ?_, ?_⟩
  · have hfail := convenience_commands_ok_iff ⟨true, true⟩ rfl rfl 5 5 "a" "b" "c" "d" "FAIL" "m"
    rw [hfail.1]
    decide
  · have hok := convenience_commands_ok_iff ⟨true, true⟩ rfl rfl 5 5 "a" "b" "c" "d" " OK " "m"
    rw [hok.2.2.2.2.2.1]
    decide

/-- C6: on an open session, any agent reply whose stripped text is not a
valid JSON document — or parses to a non-array document — makes
`get_elements` return the empty list; no parse error propagates (the
model is a total function). -/
theorem get_elements_invalid_json (conn : AndroidConnection)
    (h1 : conn.connected = true) (h2 : conn.hasSocket = true) (raw : String)
    (hp : Json.parse (pyStrip raw) = none
          ∨ ∀ items, Json.parse (pyStrip raw) ≠ some (Json.arr items)) :
    get_elements conn (fun _ => AgentResult.reply raw) = [] := by
  unfold get_elements
  rw [send_command_reply conn h1 h2 raw ("GET_ELEMENTS")]
  unfold decode_response
  rcases hp with hp | hp
  · rw [hp]
  · cases hj : Json.parse (pyStrip raw)
    case none => rfl
    case some j =>
      cases j
      case arr => exact absurd hj (hp _)
      all_goals rfl

/-- Witness for C6: the response `"not json"` yields no elements. -/
theorem get_elements_invalid_json_witness :
    Json.parse (pyStrip "not json") = none
    ∧ get_elements ⟨true, true⟩ (fun _ => AgentResult.reply ("not json")) = [] :=
  ⟨rfl, get_elements_invalid_json ⟨true, true⟩ rfl rfl ("not json") (Or.inl rfl)⟩

/-- One undecodable item aborts the whole item decode. -/
theorem decodeItems_eq_none (items : List Json) (x : Json) (hx : x ∈ items)
    (hf : Element.from_dict x = none) : decodeItems items = none := by
  induction items with
  | nil => cases hx
  | cons a rest ih =>
    unfold decodeItems
    cases hx with
    | head => rw [hf]
    | tail _ h =>
      rw [ih h]
      cases Element.from_dict a <;> rfl

/-- C10: snapshot decoding is all-or-nothing — if the stripped response
parses to a JSON array but any single item fails to decode into an
`Element`, `get_elements` returns the empty list, discarding the items
that would have decoded. -/
theorem get_elements_all_or_nothing (conn : AndroidConnection)
    (h1 : conn.connected = true) (h2 : conn.hasSocket = true)
    (raw : String) (items : List Json)
    (hp : Json.parse (pyStrip raw) = some (Json.arr items))
    (hx : ∃ x ∈ items, Element.from_dict x = none) :
    get_elements conn (fun _ => AgentResult.reply raw) = [] := by
  obtain ⟨x, hmem, hf⟩ := hx
  unfold get_elements
  rw [send_command_reply conn h1 h2 raw ("GET_ELEMENTS")]
  unfold decode_response
  rw [hp]
  show (match decodeItems items with | some es => es | none => []) = []
  rw [decodeItems_eq_none items x hmem hf]

/-- Witness for C10: the first item decodes on its own, the trailing `5`
does not, and the whole snapshot degrades to no elements. -/
theorem get_elements_all_or_nothing_witness :
    Json.parse (pyStrip "[\x7b\"resourceId\": \"btn1\"\x7d, 5]")
      = some (Json.arr [Json.obj [("resourceId", Json.str ("btn1"))], Json.num 5])
    ∧ Element.from_dict (Json.num 5) = none
    ∧ (Element.from_dict (Json.obj [("resourceId", Json.str ("btn1"))])).isSome = true
    ∧ get_elements ⟨true, true⟩
        (fun _ => AgentResult.reply ("[\x7b\"resourceId\": \"btn1\"\x7d, 5]")) = [] := by
  refine ⟨rfl, rfl, rfl, ?_⟩
  exact get_elements_all_or_nothing ⟨true, true⟩ rfl rfl
    ("[\x7b\"resourceId\": \"btn1\"\x7d, 5]")
    [Json.obj [("resourceId", Json.str ("btn1"))], Json.num 5]
    rfl
    ⟨Json.num 5, List.Mem.tail _ (List.Mem.head _), rfl⟩

/-- C8 (amended): the connection status after each operation is fully
characterized — `connect` sets it to the connect outcome regardless of the
prior status (so a failed connect always leaves the session closed, but a
`connect` issued while Open re-opens in place, an Open → Open re-entry),
`disconnect` always closes, and `send_command` never changes it. -/
theorem session_status_characterization (conn : AndroidConnection) (op : SessionOp) :
    (sessionStep conn op).connected =
      match op with
      | .connectOp b => b
      | .disconnectOp => false
      | .sendOp _ _ => conn.connected := by
  cases op with
  | connectOp b => cases b <;> rfl
  | disconnectOp => rfl
  | sendOp a c => rfl

/-- Counterexample to C8 as stated: from an Open connection, `connect`
succeeds and the connection is Open afterwards — a successful connect
performed as an Open → Open re-entry, which the claim says never
happens. -/
theorem connect_open_reentry_counterexample :
    (⟨true, true⟩ : AndroidConnection).connected = true
    ∧ (connect ⟨true, true⟩ true).2 = true
    ∧ (connect ⟨true, true⟩ true).1.connected = true :=
  ⟨rfl, rfl, rfl⟩

/-- Behaviour of `send_command` on an open session with a pure responder. -/
theorem send_command_respond (conn : AndroidConnection)
    (h1 : conn.connected = true) (h2 : conn.hasSocket = true)
    (resp : String → String) (command : String) :
    send_command conn (fun line => AgentResult.reply (resp line)) command
      = (pyStrip (resp (command ++ "\n")), [.write (command ++ "\n"), .read]) := by
  unfold send_command
  rw [h1, h2]
  rfl

/-- List lengths add over string append. -/
theorem data_length_append (s t : String) :
    (s ++ t).data.length = s.data.length + t.data.length := by
  rw [String.data_append, List.length_append]

/-- Character 11 of an appended string comes from a long-enough left part. -/
theorem data_getElem11_append (s t : String) (h : 11 < s.data.length) :
    (s ++ t).data[11]? = s.data[11]? := by
  rw [String.data_append]
  exact List.getElem?_append_left h

/-- A newline-terminated command whose verb differs from
`CLICK_BY_COORDS:` at character 11 is never a coordinate click line. -/
theorem ne_coords_cmd (pfx v : String) (x y : Int)
    (hlen : 11 < pfx.data.length) (hc : pfx.data[11]? ≠ some 'O') :
    (pfx ++ v) ++ "\n" ≠ ("CLICK_BY_COORDS:" ++ toString x ++ "," ++ toString y) ++ "\n" := by
  intro h
  apply hc
  have hC : ("CLICK_BY_COORDS:" : String).data.length = 16 := rfl
  have h11 := congrArg (fun s : String => s.data[11]?) h
  simp only at h11
  rw [data_getElem11_append (pfx ++ v) "\n" (by rw [data_length_append]; omega)] at h11
  rw [data_getElem11_append pfx v hlen] at h11
  rw [data_getElem11_append ("CLICK_BY_COORDS:" ++ toString x ++ "," ++ toString y) "\n"
    (by rw [data_length_append, data_length_append, data_length_append]; omega)] at h11
  rw [data_getElem11_append ("CLICK_BY_COORDS:" ++ toString x ++ ",") (toString y)
    (by rw [data_length_append, data_length_append]; omega)] at h11
  rw [data_getElem11_append ("CLICK_BY_COORDS:" ++ toString x) ","
    (by rw [data_length_append]; omega)] at h11
  rw [data_getElem11_append ("CLICK_BY_COORDS:") (toString x) (by omega)] at h11
  exact h11.trans rfl

/-- The attempted prefix is made of commands from the eligible list. -/
theorem attemptChain_mem (ok : String → Bool) (l : List String) (c : String)
    (hc : c ∈ attemptChain ok l) : c ∈ l := by
  induction l with
  | nil => exact hc
  | cons a rest ih =>
    rw [attemptChain] at hc
    cases hb : ok a
    · rw [hb] at hc
      simp only [Bool.false_eq_true, if_false, List.mem_cons] at hc
      rcases hc with hc | hc
      · exact hc ▸ List.Mem.head _
      · exact List.Mem.tail _ (ih hc)
    · rw [hb] at hc
      simp only [if_true, List.mem_singleton] at hc
      exact hc ▸ List.Mem.head _

/-- Every eligible click-test command is an id, text or content-desc
click. -/
theorem mem_eligibleClickCmds (e : Element) (c : String)
    (hc : c ∈ eligibleClickCmds e) :
    c = "CLICK_BY_ID:" ++ e.resource_id ∨ c = "CLICK_BY_TEXT:" ++ e.text
      ∨ c = "CLICK_BY_CONTENT_DESC:" ++ e.content_desc := by
  unfold eligibleClickCmds at hc
  split_ifs at hc <;> simp at hc <;> tauto

/-- C7: on an open session, the click-test writes exactly the
newline-terminated commands of the fixed chain id → text → content-desc,
restricted to fields that are non-empty and not `"null"`, truncated at the
first command the device answers `"OK"` to; and no coordinate click
command is ever written by it. -/
theorem click_test_priority_chain (conn : AndroidConnection)
    (resp : String → String) (e : Element)
    (h1 : conn.connected = true) (h2 : conn.hasSocket = true) :
    writesOf (click_test conn (fun line => AgentResult.reply (resp line)) e).2
      = (attemptChain (fun c => pyStrip (resp (c ++ "\n")) == "OK")
          (eligibleClickCmds e)).map (fun c => c ++ "\n")
    ∧ ∀ x y : Int,
        SockOp.write (("CLICK_BY_COORDS:" ++ toString x ++ "," ++ toString y) ++ "\n")
          ∉ (click_test conn (fun line => AgentResult.reply (resp line)) e).2 := by
  have hmain : writesOf (click_test conn (fun line => AgentResult.reply (resp line)) e).2
      = (attemptChain (fun c => pyStrip (resp (c ++ "\n")) == "OK")
          (eligibleClickCmds e)).map (fun c => c ++ "\n") := by
    simp only [click_test, click_by_id, click_by_text, click_by_content_desc,
      send_command_respond conn h1 h2, eligibleClickCmds]
    split_ifs <;> simp_all [attemptChain, writesOf]
  refine ⟨hmain, ?_⟩
  intro x y hmem
  have hw : (("CLICK_BY_COORDS:" ++ toString x ++ "," ++ toString y) ++ "\n")
      ∈ writesOf (click_test conn (fun line => AgentResult.reply (resp line)) e).2 :=
    List.mem_filterMap.mpr ⟨_, hmem, rfl⟩
  rw [hmain] at hw
  obtain ⟨c, hc, heq⟩ := List.mem_map.mp hw
  have hc2 : c ∈ eligibleClickCmds e := attemptChain_mem _ _ _ hc
  rcases mem_eligibleClickCmds e c hc2 with h | h | h <;> subst h
  · exact ne_coords_cmd ("CLICK_BY_ID:") e.resource_id x y (by decide) (by decide) heq
  · exact ne_coords_cmd ("CLICK_BY_TEXT:") e.text x y (by decide) (by decide) heq
  · exact ne_coords_cmd ("CLICK_BY_CONTENT_DESC:") e.content_desc x y
      (by decide) (by decide) heq

/-- Witness for C7: id is `"null"` (skipped), the text click succeeds, so
exactly one text command is written. -/
theorem click_test_priority_chain_witness :
    (⟨true, true⟩ : AndroidConnection).connected = true
    ∧ (⟨true, true⟩ : AndroidConnection).hasSocket = true
    ∧ writesOf (click_test ⟨true, true⟩
          (fun line => AgentResult.reply ((fun _ => "OK") line))
          { resource_id := "null", text := "Login", content_desc := "desc" }).2
        = ["CLICK_BY_TEXT:Login" ++ "\n"] := by
  refine ⟨rfl, rfl, ?_⟩
  have h := (click_test_priority_chain ⟨true, true⟩ (fun _ => "OK")
    { resource_id := "null", text := "Login", content_desc := "desc" } rfl rfl).1
  exact h.trans (by decide)

end ElementCrawler
